import Mathlib

/-!
Shallow embedding of the DDR publication packaging pipeline of
`src/simplify_algorithm.py` (classes `ResponseCodes`, `LoginToken`, `DdrInfo`,
`ControlFile`, `Utils`, `DdrPublish`, `DdrValidate`, `DdrUnpublish`,
`DdrLogin`), together with proofs about the behaviour the specification
claims.

Conventions of the embedding:
* Python exceptions are modelled by `PyErr`; a fallible statement sequence is a
  Lean value of type `Except PyErr _`.  Methods that mutate an object return
  the new object state next to the `Except` result, so that the state reached
  at the moment an exception is raised is visible.
* Python strings are Lean `String`s (both are sequences of Unicode scalar
  values); JSON documents decoded by `response.json()` are values of the
  minimal `Json` type below.
* External effects that the claims speak about (temporary-directory creation,
  HTTP requests, `shutil.rmtree` attempts, `time.sleep`) are recorded in
  explicit trace lists returned by the embedded functions.
-/

namespace Ddr

/-- Python exception classes that `simplify_algorithm.py` raises or handles:
`UserMessageException` (the module's own class, used for every business
error), `KeyError` (dict lookup misses), `requests.exceptions.RequestException`
(transport failures), and a catch-all constructor for the remaining raw
exception classes (`TypeError`, `NameError`, `AttributeError`, ...). -/
inductive PyErr where
  | userMessage (msg : String)
  | keyError (key : String)
  | requestException (msg : String)
  | otherExc (exc : String)
deriving DecidableEq

/-- Minimal JSON value model for the documents produced by `response.json()`. -/
inductive Json where
  | str (s : String)
  | num (n : Int)
  | null
  | arr (items : List Json)
  | obj (fields : List (String × Json))

/-- Python `item[key]` on a decoded JSON value: a `KeyError` when the key is
absent from a dict, a `TypeError` when the value is not a dict. -/
def Json.get (j : Json) (key : String) : Except PyErr Json :=
  match j with
  | .obj fields =>
    match List.lookup key fields with
    | some v => .ok v
    | none => .error (.keyError key)
  | _ => .error (.otherExc "TypeError")

/-- Replace (or append) a key in a dict's field list, as Python dict item
assignment does (existing keys keep their position). -/
def assocSet : List (String × Json) → String → Json → List (String × Json)
  | [], key, v => [(key, v)]
  | (k, w) :: rest, key, v =>
    if k = key then (k, v) :: rest else (k, w) :: assocSet rest key v

/-- Python `item[key] = v` on a decoded JSON dict (non-dicts are unreachable
on the paths that use this, because a `Json.get` on them fails first). -/
def Json.set (j : Json) (key : String) (v : Json) : Json :=
  match j with
  | .obj fields => .obj (assocSet fields key v)
  | other => other

/-- Python `for item in j`: iterating a decoded JSON value.  Only lists are
iterated by the source; every other shape makes the surrounding code fail
immediately (modelled as a `TypeError`, which also stands for the
`str`-iteration corner, where the per-item dict lookups would raise it). -/
def Json.iterList (j : Json) : Except PyErr (List Json) :=
  match j with
  | .arr items => .ok items
  | _ => .error (.otherExc "TypeError")

/-- Python `j is None` for a decoded JSON value (`null` decodes to `None`). -/
def Json.isNull (j : Json) : Bool :=
  match j with
  | .null => true
  | _ => false

/-- A decoded JSON value used where Python needs a `str` (slicing, `.replace`,
string concatenation): anything else raises a `TypeError`/`AttributeError`
there, modelled uniformly as `TypeError`. -/
def Json.asStr (j : Json) : Except PyErr String :=
  match j with
  | .str s => .ok s
  | _ => .error (.otherExc "TypeError")

/-- Python `title in (item_title_en, item_title_fr)` membership test of a
`str` against decoded JSON values: equal only to an equal `str` value. -/
def Json.eqStr (s : String) (j : Json) : Bool :=
  match j with
  | .str t => s == t
  | _ => false

/-- One line as `Utils.push_info` emits it for a message with no `suppl`
argument: `feedback.pushInfo(f"(date_time) - (message)")`. -/
def push_info_line (date_time message : String) : String :=
  date_time ++ " - " ++ message

/-- `LoginToken.get_token` (src/simplify_algorithm.py:218): raises
`UserMessageException` when no login stored a token in the single slot. -/
def lt_get_token (token : Option String) : Except PyErr String :=
  match token with
  | none => .error (.userMessage "The user must login first before doing any access to the DDR")
  | some t => .ok t

/-- A QGIS map layer as `DdrInfo` probes it: `shortName()` (None when the
property was never set), `name()`. -/
structure QgsLayer where
  shortName : Option String
  name : String
deriving DecidableEq

/-- The `DdrInfo` registry object (src/simplify_algorithm.py:228): per-locale
layer short-name lists (None before `init_project_file` runs) and the cached
remote catalogs. -/
structure DdrInfo where
  qgis_layer_name_en : Option (List String)
  qgis_layer_name_fr : Option (List String)
  json_theme : Json
  json_department : Json
  json_email : Json

/-- `DdrInfo.__init__`: layer-name slots unset, empty catalog lists. -/
def DdrInfo.initState : DdrInfo :=
  ⟨none, none, .arr [], .arr [], .arr []⟩

/-- `DdrInfo.init_project_file`: resets the four layer-name lists to `[]`. -/
def DdrInfo.init_project_file (info : DdrInfo) : DdrInfo :=
  { info with qgis_layer_name_en := some [], qgis_layer_name_fr := some [] }

/-- `DdrInfo.add_layer` (src/simplify_algorithm.py:247): a missing or empty
short name raises `UserMessageException`, a short name already registered for
the locale raises `UserMessageException` (duplicate), otherwise the raw short
name is appended to the locale's list (`"EN"` selects the English list, any
other language tag the French one).  The registry state at the moment of the
raise is returned next to the outcome. -/
def DdrInfo.add_layer (info : DdrInfo) (src_layer : QgsLayer) (language : String) :
    Except PyErr Unit × DdrInfo :=
  match src_layer.shortName with
  | none =>
    (.error (.userMessage ("The short name for layer " ++ src_layer.name ++ " is missing")), info)
  | some short_name =>
    if short_name = "" then
      (.error (.userMessage ("The short name for layer " ++ src_layer.name ++ " is missing")), info)
    else
      match (if language = "EN" then info.qgis_layer_name_en else info.qgis_layer_name_fr) with
      | none => (.error (.otherExc "TypeError"), info)
      | some qgis_layer_name =>
        if short_name ∈ qgis_layer_name then
          (.error (.userMessage ("Duplicate short name " ++ short_name ++ " for layer " ++ src_layer.name)), info)
        else
          if language = "EN" then
            (.ok (), { info with qgis_layer_name_en := some (qgis_layer_name ++ [short_name]) })
          else
            (.ok (), { info with qgis_layer_name_fr := some (qgis_layer_name ++ [short_name]) })

/-- Python `short_name.replace(" ", "_")`. -/
def replaceSpaceUnderscore (s : List Char) : List Char :=
  s.map (fun c => if c = ' ' then '_' else c)

/-- Model of Python `str.lower()` on one code point, exact on the ASCII and
Latin-1 ranges (the uppercase letters `A`-`Z` and `À`-`Þ` except `×` map 32
code points up); code points outside the modelled range are returned
unchanged. -/
def pyStrLowerChar (c : Char) : Char :=
  if 65 ≤ c.toNat ∧ c.toNat ≤ 90 then Char.ofNat (c.toNat + 32)
  else if 192 ≤ c.toNat ∧ c.toNat ≤ 222 ∧ c.toNat ≠ 215 then Char.ofNat (c.toNat + 32)
  else c

/-- Canonical decomposition table modelling `unicodedata.normalize("NFD", _)`
per code point, exact on the accented Latin-1 lowercase letters (each
decomposes into its base letter followed by a combining mark); code points
outside the modelled range are left undecomposed. -/
def nfdTable : List (Nat × Char × Char) :=
  [(224, 'a', '̀'), (225, 'a', '́'), (226, 'a', '̂'),
   (227, 'a', '̃'), (228, 'a', '̈'), (229, 'a', '̊'),
   (231, 'c', '̧'),
   (232, 'e', '̀'), (233, 'e', '́'), (234, 'e', '̂'), (235, 'e', '̈'),
   (236, 'i', '̀'), (237, 'i', '́'), (238, 'i', '̂'), (239, 'i', '̈'),
   (241, 'n', '̃'),
   (242, 'o', '̀'), (243, 'o', '́'), (244, 'o', '̂'),
   (245, 'o', '̃'), (246, 'o', '̈'),
   (249, 'u', '̀'), (250, 'u', '́'), (251, 'u', '̂'), (252, 'u', '̈'),
   (253, 'y', '́'), (255, 'y', '̈')]

/-- NFD decomposition of one code point (see `nfdTable`). -/
def nfdChar (c : Char) : List Char :=
  match nfdTable.find? (fun t => t.1 == c.toNat) with
  | some t => [t.2.1, t.2.2]
  | none => [c]

/-- Python `s.encode("ascii", "ignore")`: every non-ASCII code point is
dropped silently. -/
def encodeAsciiIgnore (s : List Char) : List Char :=
  s.filter (fun c => c.toNat < 128)

/-- `DdrInfo.get_layer_short_name` (src/simplify_algorithm.py:266): the
declared short name with spaces replaced by underscores, lowercased,
NFD-decomposed and with the non-ASCII remainder dropped.  (The dead
`unicode(short_name, "utf-8")` compatibility call always raises and is
swallowed by the source's own `except (TypeError, NameError): pass`.)
A layer whose short-name property was never set makes `.replace` fail on
`None`. -/
def get_layer_short_name (src_layer : QgsLayer) : Except PyErr String :=
  match src_layer.shortName with
  | none => .error (.otherExc "AttributeError")
  | some sn =>
    let step1 := replaceSpaceUnderscore sn.toList
    let step2 := step1.map pyStrLowerChar
    let step3 := (step2.map nfdChar).flatten
    let step4 := encodeAsciiIgnore step3
    .ok (String.mk step4)

/-- The loop of `DdrInfo.get_theme_uuid` (src/simplify_algorithm.py:349):
per item it reads `theme_uuid`, `title`, `title["en"]`, `title["fr"]` and
breaks on a title match; `item_uuid` keeps the value read from the *last*
iterated item when no item matched.  Returns `none` when the loop body never
ran (empty catalog), so `item_uuid` stayed unbound. -/
def theme_loop (title : String) : List Json → Except PyErr (Option Json)
  | [] => .ok none
  | item :: rest =>
    match item.get "theme_uuid" with
    | .error e => .error e
    | .ok item_uuid =>
      match item.get "title" with
      | .error e => .error e
      | .ok item_title =>
        match item_title.get "en" with
        | .error e => .error e
        | .ok item_title_en =>
          match item_title.get "fr" with
          | .error e => .error e
          | .ok item_title_fr =>
            if Json.eqStr title item_title_en ∨ Json.eqStr title item_title_fr then
              .ok (some item_uuid)
            else
              match theme_loop title rest with
              | .error e => .error e
              | .ok none => .ok (some item_uuid)
              | .ok (some u) => .ok (some u)

/-- `DdrInfo.get_theme_uuid` (src/simplify_algorithm.py:346): resolve a theme
title to its UUID.  An empty catalog leaves `item_uuid` unbound (`NameError`);
a `None` final value raises the not-found `UserMessageException`; otherwise
the last value read into `item_uuid` is returned. -/
def get_theme_uuid (info : DdrInfo) (title : String) : Except PyErr Json :=
  match info.json_theme.iterList with
  | .error e => .error e
  | .ok items =>
    match theme_loop title items with
    | .error e => .error e
    | .ok none => .error (.otherExc "NameError")
    | .ok (some item_uuid) =>
      if item_uuid.isNull then
        .error (.userMessage "Internal error: The 'title' is not found...")
      else
        .ok item_uuid

/-- Python `s.replace(",", ";")` as used on theme titles. -/
def commaToSemicolon (s : String) : String :=
  String.mk (s.toList.map (fun c => if c = ',' then ';' else c))

/-- The validation/mutation loop of `DdrInfo.add_themes`
(src/simplify_algorithm.py:324): per item it reads `theme_uuid` and `title`,
and replaces commas by semicolons in `title["en"]` and `title["fr"]` in
place.  Returns the outcome together with the list as mutated so far (the
failing item and its successors are left untouched). -/
def themes_loop : List Json → Except PyErr Unit × List Json
  | [] => (.ok (), [])
  | item :: rest =>
    match item.get "theme_uuid" with
    | .error e => (.error e, item :: rest)
    | .ok _ =>
      match item.get "title" with
      | .error e => (.error e, item :: rest)
      | .ok title =>
        match title.get "en" with
        | .error e => (.error e, item :: rest)
        | .ok title_en =>
          match title_en.asStr with
          | .error e => (.error e, item :: rest)
          | .ok en =>
            let title1 := title.set "en" (.str (commaToSemicolon en))
            match title1.get "fr" with
            | .error e => (.error e, item.set "title" title1 :: rest)
            | .ok title_fr =>
              match title_fr.asStr with
              | .error e => (.error e, item.set "title" title1 :: rest)
              | .ok fr =>
                let title2 := title1.set "fr" (.str (commaToSemicolon fr))
                let item2 := item.set "title" title2
                match themes_loop rest with
                | (r, rest2) => (r, item2 :: rest2)

/-- `DdrInfo.add_themes` (src/simplify_algorithm.py:319): stores the decoded
response *before* validating it, then checks the expected shape, converting a
`KeyError` into the catalog-format `UserMessageException`; every other
exception class propagates raw. -/
def DdrInfo.add_themes (info : DdrInfo) (json_theme : Json) :
    Except PyErr Unit × DdrInfo :=
  let stored := { info with json_theme := json_theme }
  match json_theme.iterList with
  | .error e => (.error e, stored)
  | .ok items =>
    match themes_loop items with
    | (.ok _, items2) => (.ok (), { info with json_theme := .arr items2 })
    | (.error (.keyError _), items2) =>
      (.error (.userMessage "Invalid structure of the JSON theme response from the DDR request"),
       { info with json_theme := .arr items2 })
    | (.error e, items2) => (.error e, { info with json_theme := .arr items2 })

/-- The validation loop of `DdrInfo.add_departments`
(src/simplify_algorithm.py:303): reads `qgis_data_store_root_subpath` of
every item. -/
def departments_loop : List Json → Except PyErr Unit
  | [] => .ok ()
  | item :: rest =>
    match item.get "qgis_data_store_root_subpath" with
    | .error e => .error e
    | .ok _ => departments_loop rest

/-- `DdrInfo.add_departments` (src/simplify_algorithm.py:298): stores the
decoded response before validating; a `KeyError` becomes the catalog-format
`UserMessageException` (whose text says "theme" even here, as in the
source). -/
def DdrInfo.add_departments (info : DdrInfo) (json_department : Json) :
    Except PyErr Unit × DdrInfo :=
  let stored := { info with json_department := json_department }
  match json_department.iterList with
  | .error e => (.error e, stored)
  | .ok items =>
    match departments_loop items with
    | .ok _ => (.ok (), stored)
    | .error (.keyError _) =>
      (.error (.userMessage "Invalid structure of the JSON theme response from the DDR request"), stored)
    | .error e => (.error e, stored)

/-- `DdrInfo.add_email` (src/simplify_algorithm.py:290): stores the decoded
response without validation. -/
def DdrInfo.add_email (info : DdrInfo) (json_email : Json) :
    Except PyErr Unit × DdrInfo :=
  (.ok (), { info with json_email := json_email })

/-- The `ControlFile` dataclass (src/simplify_algorithm.py:370) plus the
attributes the pipeline sets on it dynamically (`qgs_server_id`,
`csz_collection_theme`, `department`, `src_qgs_project_name`,
`gpkg_layer_name`), all defaulting to Python `None` except the two
empty-string defaults of the dataclass. -/
structure ControlFile where
  department : Option String := none
  download_info_id : Option String := none
  metadata_uuid : Option String := none
  qgis_server_id : Option String := none
  qgs_server_id : Option String := none
  download_package_name : String := ""
  core_subject_term : String := ""
  csz_collection_theme : Option String := none
  in_project_filename : Option String := none
  language : Option String := none
  gpkg_file_name : Option String := none
  control_file_dir : Option String := none
  control_file_name : Option String := none
  zip_file_name : Option String := none
  keep_files : Option String := none
  json_document : Option String := none
  dst_qgs_project_name : Option String := none
  src_qgs_project_name : Option String := none
  gpkg_layer_name : Option (List String) := none
  qgis_project_file_en : Option String := none
  qgis_project_file_fr : Option String := none
  out_qgs_project_file_en : Option String := none
  out_qgs_project_file_fr : Option String := none

/-- Python `pathlib.Path(s).name`: the part of a POSIX path after its last
separator. -/
def pathName (s : String) : String :=
  String.mk (s.toList.foldl (fun acc c => if c = '/' then [] else acc ++ [c]) [])

/-- Python `os.path.join(dir, name)` for a relative `name` on POSIX. -/
def pathJoin (dir name : String) : String :=
  dir ++ "/" ++ name

/-- The manifest document `Utils.create_json_control_file` renders
(src/simplify_algorithm.py:481): the `generic_parameters` block and one
`service_parameters` entry per language, each entry being
`(in_project_filename, language, service_schema_name)`. -/
structure Manifest where
  department : Option String
  download_info_id : Option String
  email : Json
  metadata_uuid : Option String
  qgis_server_id : Option String
  download_package_name : String
  core_subject_term : String
  czs_collection_theme : Json
  service_parameters : List (String × String × Option String)

/-- `Utils.create_json_control_file` (src/simplify_algorithm.py:475): resolves
the CSZ theme UUID, builds the manifest document (taking the basename of each
locale's output project file - a still-`None` path makes `Path` fail), and
records the fixed manifest filename `ControlFile.json` inside the working
directory. -/
def create_json_control_file (ctl : ControlFile) (info : DdrInfo) :
    Except PyErr (ControlFile × Manifest) :=
  match ctl.csz_collection_theme with
  | none => .error (.otherExc "AttributeError")
  | some theme_title =>
    match get_theme_uuid info theme_title with
    | .error e => .error e
    | .ok theme_uuid =>
      match ctl.out_qgs_project_file_en, ctl.out_qgs_project_file_fr with
      | some out_en, some out_fr =>
        let m : Manifest :=
          ⟨ctl.department, ctl.download_info_id, info.json_email, ctl.metadata_uuid,
           ctl.qgs_server_id, ctl.download_package_name, ctl.core_subject_term, theme_uuid,
           [(pathName out_en, "English", ctl.department),
            (pathName out_fr, "French", ctl.department)]⟩
        match ctl.control_file_dir with
        | none => .error (.otherExc "TypeError")
        | some dir =>
          .ok ({ ctl with control_file_name := some (pathJoin dir "ControlFile.json") }, m)
      | _, _ => .error (.otherExc "TypeError")

/-- `Utils.create_zip_file` (src/simplify_algorithm.py:729): after a temporary
`os.chdir` into the working directory, writes exactly the basenames of the
manifest file, the GeoPackage container and the two locale project files into
`ddr_publish.zip`, so each archive entry name is the relative basename.
Returns the updated control record and the list of entry names in order; a
still-`None` path makes `Path` fail. -/
def create_zip_file (ctl : ControlFile) : Except PyErr (ControlFile × List String) :=
  match ctl.control_file_dir with
  | none => .error (.otherExc "TypeError")
  | some dir =>
    match ctl.control_file_name, ctl.gpkg_file_name,
          ctl.out_qgs_project_file_en, ctl.out_qgs_project_file_fr with
    | some control_name, some gpkg_name, some out_en, some out_fr =>
      let lst_file_to_zip :=
        [pathName control_name, pathName gpkg_name, pathName out_en, pathName out_fr]
      .ok ({ ctl with zip_file_name := some (pathJoin dir "ddr_publish.zip") }, lst_file_to_zip)
    | _, _, _, _ => .error (.otherExc "TypeError")

/-- Filesystem effects of the snapshot step the claims speak about. -/
inductive FsEffect where
  | mkdtemp (dir : String)
deriving DecidableEq

/-- The state `QgsProject.instance()` exposes to the snapshot step. -/
structure QgsProjectState where
  isDirty : Bool
  fileName : String

/-- The per-locale registration loop of `Utils.copy_qgis_project_file`:
`DDR_INFO.add_layer(src_layer, language)` over the loaded project's layers,
stopping at the first raise. -/
def add_layers_loop (info : DdrInfo) (layers : List QgsLayer) (language : String) :
    Except PyErr Unit × DdrInfo :=
  match layers with
  | [] => (.ok (), info)
  | l :: rest =>
    match info.add_layer l language with
    | (.ok _, info2) => add_layers_loop info2 rest language
    | (.error e, info2) => (.error e, info2)

/-- `Utils.copy_qgis_project_file` (src/simplify_algorithm.py:589): refuses a
dirty project before anything else, then records the original project's file
name, creates the temporary working directory (`tempfile.mkdtemp`, recorded as
an effect), and for each non-empty locale input path loads the project,
serializes it into the working directory and registers its layers.
`mapLayersOf` gives the layers of each loaded project file; `tmpdir` is the
fresh directory name `mkdtemp` picks.  Project `read`/`write` calls are
modelled as succeeding. -/
def copy_qgis_project_file (proj : QgsProjectState) (tmpdir : String)
    (mapLayersOf : String → List QgsLayer) (ctl : ControlFile) (info : DdrInfo) :
    Except PyErr (ControlFile × DdrInfo) × List FsEffect :=
  if proj.isDirty then
    (.error (.userMessage "The QGIS project file must be saved before starting the DDR publication"), [])
  else
    let ctl1 := { ctl with src_qgs_project_name := some proj.fileName,
                           control_file_dir := some tmpdir }
    let effects := [FsEffect.mkdtemp tmpdir]
    match ctl1.qgis_project_file_fr with
    | none => (.error (.otherExc "TypeError"), effects)
    | some fr_path =>
      let afterFr :
          Except PyErr (ControlFile × DdrInfo) :=
        if fr_path ≠ "" then
          let ctl2 := { ctl1 with out_qgs_project_file_fr := some (pathJoin tmpdir (pathName fr_path)) }
          match add_layers_loop info (mapLayersOf fr_path) "FR" with
          | (.error e, _) => .error e
          | (.ok _, info2) => .ok (ctl2, info2)
        else .ok (ctl1, info)
      match afterFr with
      | .error e => (.error e, effects)
      | .ok (ctl2, info2) =>
        match ctl2.qgis_project_file_en with
        | none => (.error (.otherExc "TypeError"), effects)
        | some en_path =>
          if en_path ≠ "" then
            let ctl3 := { ctl2 with out_qgs_project_file_en := some (pathJoin tmpdir (pathName en_path)),
                                    gpkg_layer_name := some [] }
            match add_layers_loop info2 (mapLayersOf en_path) "EN" with
            | (.error e, _) => (.error e, effects)
            | (.ok _, info3) => (.ok (ctl3, info3), effects)
          else (.ok (ctl2, info2), effects)

/-- The effects of `Utils.delete_dir_file` the claims speak about: one
`shutil.rmtree` attempt, the `time.sleep(.5)` backoff after a failed attempt,
and the success log line pushed after a successful deletion. -/
inductive CleanEffect where
  | rmtreeAttempt
  | sleepHalfSecond
  | logDeleted
deriving DecidableEq

/-- The bounded retry loop of `Utils.delete_dir_file`
(src/simplify_algorithm.py:783): up to the given number of attempts, each
failed `shutil.rmtree` (given by `rm` per attempt index) is followed by a
half-second sleep; a successful one logs the deletion and breaks.  Every
exception of an attempt is swallowed; nothing is reported when all attempts
fail. -/
def delete_retry_loop (rm : Nat → Bool) (i : Nat) : Nat → List CleanEffect
  | 0 => []
  | n + 1 =>
    if rm i then [CleanEffect.rmtreeAttempt, CleanEffect.logDeleted]
    else CleanEffect.rmtreeAttempt :: CleanEffect.sleepHalfSecond :: delete_retry_loop rm (i + 1) n

/-- `Utils.delete_dir_file` (src/simplify_algorithm.py:778): deletes the
working directory only when the keep-files flag equals `"No"`, retrying at
most 5 times. -/
def delete_dir_file (keep_files : Option String) (rm : Nat → Bool) : List CleanEffect :=
  if keep_files = some "No" then delete_retry_loop rm 0 5 else []

/-- The number of `shutil.rmtree` attempts in a cleanup trace. -/
def attemptCount : List CleanEffect → Nat
  | [] => 0
  | e :: rest => (if e = CleanEffect.rmtreeAttempt then 1 else 0) + attemptCount rest

/-- An HTTP response as the `ResponseCodes` interpreters see it: the status
code and the outcome of `response.json()` (which raises when the body is not
parseable JSON). -/
structure Response where
  status_code : Nat
  json : Except PyErr Json

/-- Model of the `http.client.responses` reason-phrase dict for the status
codes exercised here; looking up a code outside the dict raises `KeyError`
in the source. -/
def http_responses (status : Nat) : Option String :=
  if status = 200 then some "OK"
  else if status = 201 then some "Created"
  else if status = 204 then some "No Content"
  else if status = 301 then some "Moved Permanently"
  else if status = 302 then some "Found"
  else if status = 400 then some "Bad Request"
  else if status = 401 then some "Unauthorized"
  else if status = 403 then some "Forbidden"
  else if status = 404 then some "Not Found"
  else if status = 500 then some "Internal Server Error"
  else if status = 502 then some "Bad Gateway"
  else if status = 503 then some "Service Unavailable"
  else none

/-- `ResponseCodes._push_response` (src/simplify_algorithm.py:58).  The outer
`try` logs the status line; the inner `try` decodes and logs the JSON body
and swallows *any* failure of that with `pass` - so an unparseable error body
returns normally.  The outer `except` only fires when the first `push_info`
call itself raises, and its f-string then references the never-assigned
`json_response`, raising `NameError` instead of the intended
`UserMessageException` (which is unreachable for a badly formed body).
`push1` and `push2` model the outcomes of the two `Utils.push_info` calls
(`.ok ()` for a working feedback object). -/
def rc_push_response (push1 push2 : Except PyErr Unit) (respJson : Except PyErr Json)
    (status_code : Nat) (message : String) : Except PyErr Unit :=
  match push1 with
  | .error _ => .error (.otherExc "NameError")
  | .ok _ =>
    match respJson with
    | .error _ => .ok ()
    | .ok _ =>
      match push2 with
      | .error _ => .ok ()
      | .ok _ => .ok ()

/-- Dispatch shared by the interpreters for statuses outside their explicit
arms: `http.client.responses[status]` then `_push_response`
(`Utils.push_info` is modelled as succeeding at these call sites). -/
def rc_push_other (resp : Response) : Except PyErr Unit :=
  match http_responses resp.status_code with
  | none => .error (.keyError (toString resp.status_code))
  | some description => rc_push_response (.ok ()) (.ok ()) resp.json resp.status_code description

/-- `ResponseCodes.publish_project_file` (src/simplify_algorithm.py:174):
204 logs success; 401, 403, 500 and anything else go through
`_push_response`. -/
def rc_publish_project_file (resp : Response) : Except PyErr Unit :=
  if resp.status_code = 204 then .ok ()
  else if resp.status_code = 401 then
    rc_push_response (.ok ()) (.ok ()) resp.json 401 "Access token is missing or invalid."
  else if resp.status_code = 403 then
    rc_push_response (.ok ()) (.ok ()) resp.json 403 "Access does not have the required scope."
  else if resp.status_code = 500 then
    rc_push_response (.ok ()) (.ok ()) resp.json 500 "Internal error."
  else
    rc_push_response (.ok ()) (.ok ()) resp.json resp.status_code "Unknown error"

/-- `ResponseCodes.validate_project_file` (src/simplify_algorithm.py:73): 200
decodes and logs the body (a parse failure there propagates raw); 401, 403,
500 and anything else go through `_push_response`. -/
def rc_validate_project_file (resp : Response) : Except PyErr Unit :=
  if resp.status_code = 200 then
    match resp.json with
    | .error e => .error e
    | .ok _ => .ok ()
  else if resp.status_code = 401 then
    rc_push_response (.ok ()) (.ok ()) resp.json 401 "Access token is missing or invalid."
  else if resp.status_code = 403 then
    rc_push_response (.ok ()) (.ok ()) resp.json 403 "Access token does not have the required scope."
  else if resp.status_code = 500 then
    rc_push_response (.ok ()) (.ok ()) resp.json 500 "Internal error."
  else
    rc_push_other resp

/-- `ResponseCodes.create_access_token` (src/simplify_algorithm.py:91): on
200 it stores `json_response["access_token"]` in the token slot and reads the
four remaining fields; a missing key raises a raw `KeyError` (after
`access_token` was already stored, the slot keeps the new value).  400, 401
and other statuses go through `_push_response`.  The token value is modelled
as a string (a non-string value would be stored and then fail at the first
slicing use, modelled as `TypeError` here). -/
def rc_create_access_token (resp : Response) (token : Option String) :
    Except PyErr Unit × Option String :=
  if resp.status_code = 200 then
    match resp.json with
    | .error e => (.error e, token)
    | .ok j =>
      match j.get "access_token" with
      | .error e => (.error e, token)
      | .ok tv =>
        match tv.asStr with
        | .error e => (.error e, token)
        | .ok t =>
          match j.get "expires_in" with
          | .error e => (.error e, some t)
          | .ok _ =>
            match j.get "refresh_token" with
            | .error e => (.error e, some t)
            | .ok rt =>
              match rt.asStr with
              | .error e => (.error e, some t)
              | .ok _ =>
                match j.get "refresh_expires_in" with
                | .error e => (.error e, some t)
                | .ok _ =>
                  match j.get "token_type" with
                  | .error e => (.error e, some t)
                  | .ok _ => (.ok (), some t)
  else if resp.status_code = 400 then
    (rc_push_response (.ok ()) (.ok ()) resp.json 400 "Bad request received on server.", token)
  else if resp.status_code = 401 then
    (rc_push_response (.ok ()) (.ok ()) resp.json 401 "Invalid credentials provided.", token)
  else
    (rc_push_other resp, token)

/-- `ResponseCodes.read_csz_theme` (src/simplify_algorithm.py:117): 200
decodes the body and hands it to `DDR_INFO.add_themes`; 401, 403 and other
statuses go through `_push_response`. -/
def rc_read_csz_theme (resp : Response) (info : DdrInfo) :
    Except PyErr Unit × DdrInfo :=
  if resp.status_code = 200 then
    match resp.json with
    | .error e => (.error e, info)
    | .ok j => info.add_themes j
  else if resp.status_code = 401 then
    (rc_push_response (.ok ()) (.ok ()) resp.json 401 "Access token is missing or invalid.", info)
  else if resp.status_code = 403 then
    (rc_push_response (.ok ()) (.ok ()) resp.json 403 "Access does not have the required scope.", info)
  else
    (rc_push_other resp, info)

/-- `ResponseCodes.read_ddr_departments` (src/simplify_algorithm.py:136). -/
def rc_read_ddr_departments (resp : Response) (info : DdrInfo) :
    Except PyErr Unit × DdrInfo :=
  if resp.status_code = 200 then
    match resp.json with
    | .error e => (.error e, info)
    | .ok j => info.add_departments j
  else if resp.status_code = 401 then
    (rc_push_response (.ok ()) (.ok ()) resp.json 401 "Access token is missing or invalid.", info)
  else if resp.status_code = 403 then
    (rc_push_response (.ok ()) (.ok ()) resp.json 403 "Access does not have the required scope.", info)
  else
    (rc_push_other resp, info)

/-- `ResponseCodes.read_user_email` (src/simplify_algorithm.py:155). -/
def rc_read_user_email (resp : Response) (info : DdrInfo) :
    Except PyErr Unit × DdrInfo :=
  if resp.status_code = 200 then
    match resp.json with
    | .error e => (.error e, info)
    | .ok j => info.add_email j
  else if resp.status_code = 401 then
    (rc_push_response (.ok ()) (.ok ()) resp.json 401 "Access token is missing or invalid.", info)
  else if resp.status_code = 403 then
    (rc_push_response (.ok ()) (.ok ()) resp.json 403 "Access does not have the required scope.", info)
  else
    (rc_push_other resp, info)

/-- The remote endpoint URLs of `simplify_algorithm.py`. -/
def loginUrl : String := "https://qgis.ddr-stage.services.geo.ca/api/login"

/-- See `loginUrl`. -/
def czsThemesUrl : String := "https://qgis.ddr-stage.services.geo.ca/api/czs_themes"

/-- See `loginUrl`. -/
def ddrDepartmentsUrl : String := "https://qgis.ddr-stage.services.geo.ca/api/ddr_departments"

/-- See `loginUrl`. -/
def ddrMyEmailUrl : String := "https://qgis.ddr-stage.services.geo.ca/api/ddr_my_email"

/-- See `loginUrl`. -/
def validateUrl : String := "https://qgis.ddr-stage.services.geo.ca/api/validate"

/-- See `loginUrl`. -/
def processesUrl : String := "https://qgis.ddr-stage.services.geo.ca/api/processes"

/-- The `UserMessageException` message raised when a `requests` call fails
with a `RequestException`. -/
def majorProblemMsg (url : String) : String :=
  "Major problem with the DDR Publication API: " ++ url

/-- `DdrPublish.publish_project_file` (src/simplify_algorithm.py:1062): reads
the bearer token for the request headers (raising when no login happened),
opens the archive, then issues `requests.put` to the processes endpoint and
interprets the response; only `RequestException` is converted to the
`UserMessageException`.  `zip_open` is the outcome of `open(zip_file, "rb")`
and `send` the outcome of `requests.put`; the returned list records each URL
an HTTP request was issued to. -/
def publish_project_file (token : Option String) (zip_open : Except PyErr Unit)
    (send : Except PyErr Response) : Except PyErr Unit × List String :=
  match lt_get_token token with
  | .error e => (.error e, [])
  | .ok _ =>
    match zip_open with
    | .error e => (.error e, [])
    | .ok _ =>
      match send with
      | .error (.requestException _) => (.error (.userMessage (majorProblemMsg processesUrl)), [processesUrl])
      | .error e => (.error e, [processesUrl])
      | .ok resp => (rc_publish_project_file resp, [processesUrl])

/-- `DdrValidate.validate_project_file` (src/simplify_algorithm.py:1180),
same shape as `publish_project_file` with `requests.post` to the validate
endpoint. -/
def validate_project_file (token : Option String) (zip_open : Except PyErr Unit)
    (send : Except PyErr Response) : Except PyErr Unit × List String :=
  match lt_get_token token with
  | .error e => (.error e, [])
  | .ok _ =>
    match zip_open with
    | .error e => (.error e, [])
    | .ok _ =>
      match send with
      | .error (.requestException _) => (.error (.userMessage (majorProblemMsg validateUrl)), [validateUrl])
      | .error e => (.error e, [validateUrl])
      | .ok resp => (rc_validate_project_file resp, [validateUrl])

/-- `Utils.create_access_token` (src/simplify_algorithm.py:565):
`requests.post` to the login endpoint, its response interpreted by
`ResponseCodes.create_access_token`; only `RequestException` is converted to
the `UserMessageException`. -/
def utils_create_access_token (send : Except PyErr Response) (token : Option String) :
    Except PyErr Unit × Option String :=
  match send with
  | .error (.requestException _) => (.error (.userMessage (majorProblemMsg loginUrl)), token)
  | .error e => (.error e, token)
  | .ok resp => rc_create_access_token resp token

/-- `Utils.read_csz_themes` (src/simplify_algorithm.py:519): bearer token for
the headers (raising when no login happened), `requests.get`, then
`ResponseCodes.read_csz_theme`; only `RequestException` is converted. -/
def read_csz_themes (send : Except PyErr Response) (token : Option String) (info : DdrInfo) :
    Except PyErr Unit × DdrInfo :=
  match lt_get_token token with
  | .error e => (.error e, info)
  | .ok _ =>
    match send with
    | .error (.requestException _) => (.error (.userMessage (majorProblemMsg czsThemesUrl)), info)
    | .error e => (.error e, info)
    | .ok resp => rc_read_csz_theme resp info

/-- `Utils.read_ddr_departments` (src/simplify_algorithm.py:534). -/
def read_ddr_departments (send : Except PyErr Response) (token : Option String) (info : DdrInfo) :
    Except PyErr Unit × DdrInfo :=
  match lt_get_token token with
  | .error e => (.error e, info)
  | .ok _ =>
    match send with
    | .error (.requestException _) => (.error (.userMessage (majorProblemMsg ddrDepartmentsUrl)), info)
    | .error e => (.error e, info)
    | .ok resp => rc_read_ddr_departments resp info

/-- `Utils.read_user_email` (src/simplify_algorithm.py:549). -/
def read_user_email (send : Except PyErr Response) (token : Option String) (info : DdrInfo) :
    Except PyErr Unit × DdrInfo :=
  match lt_get_token token with
  | .error e => (.error e, info)
  | .ok _ =>
    match send with
    | .error (.requestException _) => (.error (.userMessage (majorProblemMsg ddrMyEmailUrl)), info)
    | .error e => (.error e, info)
    | .ok resp => rc_read_user_email resp info

/-- The stages `Utils.process_algorithm` (src/simplify_algorithm.py:412) runs
in order, named after the statements of its body.  `remoteOp` stands for the
`validate_project_file` / `publish_project_file` / `unpublish_project_file`
call the `process_type` dispatch selects. -/
inductive Stage where
  | initProjectFile
  | readParameters
  | validateParameters
  | copyQgisProjectFile
  | copyLayerGpkg
  | setLayerDataSource
  | createJsonControlFile
  | createZipFile
  | remoteOp
  | restoreOriginalProjectFile
  | deleteDirFile
deriving DecidableEq

/-- Run a statement sequence: each stage's outcome is given by `env`; the
first raise aborts the rest.  Returns the overall outcome and the list of
stages that started executing. -/
def runSeq (env : Stage → Except PyErr Unit) : List Stage → Except PyErr Unit × List Stage
  | [] => (.ok (), [])
  | s :: rest =>
    match env s with
    | .error e => (.error e, [s])
    | .ok _ =>
      match runSeq env rest with
      | (r, t) => (r, s :: t)

/-- The stages before the `process_type` dispatch, in source order. -/
def preStages : List Stage :=
  [Stage.initProjectFile, Stage.readParameters, Stage.validateParameters,
   Stage.copyQgisProjectFile, Stage.copyLayerGpkg, Stage.setLayerDataSource,
   Stage.createJsonControlFile, Stage.createZipFile]

/-- `Utils.process_algorithm` (src/simplify_algorithm.py:412) as a straight
statement sequence: the preparation stages, then the remote operation
selected by `process_type` (an unknown type raises), then the restore and
cleanup statements.  There is no `try`/`finally`: a raise anywhere
short-circuits every later statement.  Returns the outcome and the stages
that started executing. -/
def process_algorithm (process_type : String) (env : Stage → Except PyErr Unit) :
    Except PyErr Unit × List Stage :=
  match runSeq env preStages with
  | (.error e, t) => (.error e, t)
  | (.ok _, t) =>
    if process_type = "VALIDATE" ∨ process_type = "PUBLISH" ∨ process_type = "UNPUBLISH" then
      match env Stage.remoteOp with
      | .error e => (.error e, t ++ [Stage.remoteOp])
      | .ok _ =>
        match runSeq env [Stage.restoreOriginalProjectFile, Stage.deleteDirFile] with
        | (r, t2) => (r, t ++ Stage.remoteOp :: t2)
    else
      (.error (.userMessage ("Internal error. Unknown Process Type: " ++ process_type)), t)

/-- The boundary of `DdrPublish.processAlgorithm` (src/simplify_algorithm.py:1084)
and its validate/unpublish twins: the orchestrator runs inside a `try` that
catches `UserMessageException` only, logging two timestamped lines and
returning `{}` normally; any other exception class escapes to the host.
`label` is the per-entry first log line (`"Publish process"` etc.). -/
def entry_processAlgorithm (date_time label : String) (process_type : String)
    (env : Stage → Except PyErr Unit) : Except PyErr Unit × List String :=
  match process_algorithm process_type env with
  | (.error (.userMessage m), _) =>
    (.ok (), [push_info_line date_time ("ERROR: " ++ label),
              push_info_line date_time ("ERROR: " ++ m)])
  | (.error e, _) => (.error e, [])
  | (.ok _, _) => (.ok (), [])

/-- The inputs a `DdrLogin.processAlgorithm` run consumes: the decrypted
authentication config map and the outcome of each of the four HTTP calls. -/
structure LoginEnv where
  auth_info : String → Option String
  login_resp : Except PyErr Response
  themes_resp : Except PyErr Response
  departments_resp : Except PyErr Response
  email_resp : Except PyErr Response

/-- `DdrLogin.read_parameters` (src/simplify_algorithm.py:1392): extracts
username and password from the authentication config, converting a `KeyError`
into the `UserMessageException` (message text as in the source). -/
def ddrLogin_read_parameters (env : LoginEnv) : Except PyErr (String × String) :=
  match env.auth_info "username", env.auth_info "password" with
  | some u, some p => .ok (u, p)
  | _, _ => .error (.userMessage "Unable to extract username/password from QGIS authetication system")

/-- The body of the `try` block of `DdrLogin.processAlgorithm`
(src/simplify_algorithm.py:1422): read credentials, create the access token,
then load the themes, departments and email catalogs.  Threads the token slot
and the `DDR_INFO` state. -/
def login_body (env : LoginEnv) (token0 : Option String) (info0 : DdrInfo) :
    Except PyErr Unit × Option String × DdrInfo :=
  match ddrLogin_read_parameters env with
  | .error e => (.error e, token0, info0)
  | .ok _ =>
    match utils_create_access_token env.login_resp token0 with
    | (.error e, token1) => (.error e, token1, info0)
    | (.ok _, token1) =>
      match read_csz_themes env.themes_resp token1 info0 with
      | (.error e, info1) => (.error e, token1, info1)
      | (.ok _, info1) =>
        match read_ddr_departments env.departments_resp token1 info1 with
        | (.error e, info2) => (.error e, token1, info2)
        | (.ok _, info2) =>
          match read_user_email env.email_resp token1 info2 with
          | (r, info3) => (r, token1, info3)

/-- `DdrLogin.processAlgorithm` (src/simplify_algorithm.py:1418): the login
body inside a `try` that catches `UserMessageException` only, logging two
timestamped lines and returning `{}` normally; any other exception class
escapes to the host.  Returns the outcome with the final token and registry
state, and the boundary log lines. -/
def ddrLogin_processAlgorithm (date_time : String) (env : LoginEnv)
    (token0 : Option String) (info0 : DdrInfo) :
    (Except PyErr Unit × Option String × DdrInfo) × List String :=
  match login_body env token0 info0 with
  | (.error (.userMessage m), token, info) =>
    ((.ok (), token, info), [push_info_line date_time "ERROR: Login process",
                             push_info_line date_time ("ERROR: " ++ m)])
  | (.error e, token, info) => ((.error e, token, info), [])
  | (.ok _, token, info) => ((.ok (), token, info), [])

/-- A well-formed CSZ theme catalog entry as the DDR service returns it:
`theme_uuid` (possibly JSON null) and a bilingual `title` object. -/
def mkThemeItem (uuid : Option String) (en fr : String) : Json :=
  Json.obj [("theme_uuid", match uuid with | some u => Json.str u | none => Json.null),
            ("title", Json.obj [("en", Json.str en), ("fr", Json.str fr)])]

/-- A run in which the GeoPackage-copy stage raises a
`UserMessageException` and every other stage would succeed. -/
def env_gpkg_failure : Stage → Except PyErr Unit :=
  fun s => if s = Stage.copyLayerGpkg then .error (.userMessage "container failure") else .ok ()

/-- A login run whose credentials resolve and whose login request returns
HTTP 200 with a JSON body that lacks the `access_token` field. -/
def env_login_missing_token : LoginEnv :=
  ⟨fun k => if k = "username" then some "u" else if k = "password" then some "p" else none,
   .ok ⟨200, .ok (Json.obj [])⟩, .ok ⟨200, .ok (Json.arr [])⟩,
   .ok ⟨200, .ok (Json.arr [])⟩, .ok ⟨200, .ok (Json.arr [])⟩⟩

/-- A login run whose authentication config map holds neither username nor
password. -/
def env_login_no_credentials : LoginEnv :=
  ⟨fun _ => none,
   .ok ⟨200, .ok (Json.obj [])⟩, .ok ⟨200, .ok (Json.arr [])⟩,
   .ok ⟨200, .ok (Json.arr [])⟩, .ok ⟨200, .ok (Json.arr [])⟩⟩

/-- A control record as it stands when `create_zip_file` runs: working
directory, manifest, container and locale project paths all filled in. -/
def ctl_ready_for_zip : ControlFile :=
  { control_file_dir := some "/tmp/qgis_abc123",
    control_file_name := some "/tmp/qgis_abc123/ControlFile.json",
    gpkg_file_name := some "/tmp/qgis_abc123/qgis_vector_layers.gpkg",
    out_qgs_project_file_en := some "/tmp/qgis_abc123/project_en.qgs",
    out_qgs_project_file_fr := some "/tmp/qgis_abc123/project_fr.qgs" }

end Ddr

namespace Ddr

/-! Helper lemmas shared by the claim theorems. -/

/-- A stage recorded by `runSeq` is one of the stages it was given. -/
theorem runSeq_mem (env : Stage → Except PyErr Unit) :
    ∀ (l : List Stage) (s : Stage), s ∈ (runSeq env l).2 → s ∈ l := by
  intro l
  induction l with
  | nil => intro s hs; simp [runSeq] at hs
  | cons a rest ih =>
    intro s hs
    simp only [runSeq] at hs
    cases h : env a with
    | error e =>
      rw [h] at hs
      simp at hs
      simp [hs]
    | ok u =>
      rw [h] at hs
      rcases hr : runSeq env rest with ⟨r, t⟩
      rw [hr] at hs
      simp at hs
      rcases hs with hsa | hst
      · simp [hsa]
      · exact List.mem_cons_of_mem a (ih s (by rw [hr]; exact hst))

/-- The basename fold never leaves a separator in its accumulator. -/
theorem pathName_fold_no_slash (l : List Char) :
    ∀ acc : List Char, '/' ∉ acc →
      '/' ∉ l.foldl (fun acc c => if c = '/' then [] else acc ++ [c]) acc := by
  induction l with
  | nil => intro acc h; simpa using h
  | cons c rest ih =>
    intro acc h
    simp only [List.foldl]
    by_cases hc : c = '/'
    · rw [if_pos hc]
      exact ih [] (by simp)
    · rw [if_neg hc]
      refine ih (acc ++ [c]) ?_
      intro hmem
      rcases List.mem_append.mp hmem with h1 | h2
      · exact h h1
      · exact hc ((List.mem_singleton.mp h2).symm)

/-- `pathlib.Path(s).name` holds no path separator: archive entry names are
relative, flat names. -/
theorem pathName_no_slash (s : String) : '/' ∉ (pathName s).toList := by
  unfold pathName
  exact pathName_fold_no_slash s.toList [] (by simp)

/-- The cleanup retry loop performs at most as many `rmtree` attempts as the
bound it is given. -/
theorem attemptCount_delete_retry_loop_le (rm : Nat → Bool) :
    ∀ (n i : Nat), attemptCount (delete_retry_loop rm i n) ≤ n := by
  intro n
  induction n with
  | zero => intro i; simp [delete_retry_loop, attemptCount]
  | succ m ih =>
    intro i
    simp only [delete_retry_loop]
    by_cases h : rm i
    · rw [if_pos h]
      simp [attemptCount]
    · rw [if_neg h]
      simp only [attemptCount, if_pos rfl]
      have := ih (i + 1)
      simp [attemptCount] at *
      omega

/-- When every `rmtree` attempt fails, the retry loop logs nothing. -/
theorem delete_retry_loop_all_fail_silent (rm : Nat → Bool) (hrm : ∀ i, rm i = false) :
    ∀ (n i : Nat), CleanEffect.logDeleted ∉ delete_retry_loop rm i n := by
  intro n
  induction n with
  | zero => intro i; simp [delete_retry_loop]
  | succ m ih =>
    intro i
    simp only [delete_retry_loop, hrm i, Bool.false_eq_true, if_false]
    intro hmem
    rcases List.mem_cons.mp hmem with h1 | hmem2
    · exact absurd h1 (by decide)
    · rcases List.mem_cons.mp hmem2 with h2 | h3
      · exact absurd h2 (by decide)
      · exact ih (i + 1) h3

/-- Reading `theme_uuid` of a well-formed catalog entry. -/
theorem mkThemeItem_get_uuid (uuid : Option String) (en fr : String) :
    (mkThemeItem uuid en fr).get "theme_uuid" =
      .ok (match uuid with | some u => Json.str u | none => Json.null) :=
  rfl

/-- Reading `title` of a well-formed catalog entry. -/
theorem mkThemeItem_get_title (uuid : Option String) (en fr : String) :
    (mkThemeItem uuid en fr).get "title" =
      .ok (Json.obj [("en", Json.str en), ("fr", Json.str fr)]) :=
  rfl

/-- Reading the English title of a well-formed bilingual title object. -/
theorem title_get_en (en fr : String) :
    (Json.obj [("en", Json.str en), ("fr", Json.str fr)]).get "en" = .ok (.str en) :=
  rfl

/-- Reading the French title of a well-formed bilingual title object. -/
theorem title_get_fr (en fr : String) :
    (Json.obj [("en", Json.str en), ("fr", Json.str fr)]).get "fr" = .ok (.str fr) :=
  rfl

/-- The `get_theme_uuid` loop falls through a non-matching entry, keeping the
result of the rest when the rest still runs the loop body. -/
theorem theme_loop_cons_skip (title : String) (x : Option String) (a b : String)
    (rest : List Json) (v : Json) (ha : title ≠ a) (hb : title ≠ b)
    (hrest : theme_loop title rest = .ok (some v)) :
    theme_loop title (mkThemeItem x a b :: rest) = .ok (some v) := by
  have h1 : Json.eqStr title (Json.str a) = false := by
    simp [Json.eqStr]; exact ha
  have h2 : Json.eqStr title (Json.str b) = false := by
    simp [Json.eqStr]; exact hb
  simp only [theme_loop, mkThemeItem_get_uuid, mkThemeItem_get_title, title_get_en,
    title_get_fr, h1, h2, hrest]
  simp

/-- The `get_theme_uuid` loop on a single non-matching entry keeps that
entry's uuid. -/
theorem theme_loop_single_no_match (title u en fr : String)
    (hen : title ≠ en) (hfr : title ≠ fr) :
    theme_loop title [mkThemeItem (some u) en fr] = .ok (some (.str u)) := by
  have h1 : Json.eqStr title (Json.str en) = false := by
    simp [Json.eqStr]; exact hen
  have h2 : Json.eqStr title (Json.str fr) = false := by
    simp [Json.eqStr]; exact hfr
  simp only [theme_loop, mkThemeItem_get_uuid, mkThemeItem_get_title, title_get_en,
    title_get_fr, h1, h2]
  simp

/-- The `get_theme_uuid` loop over a catalog with no matching title ends with
the last entry's uuid. -/
theorem theme_loop_no_match_list (title u en fr : String)
    (hen : title ≠ en) (hfr : title ≠ fr) :
    ∀ recs : List (Option String × String × String),
      (∀ r ∈ recs, title ≠ r.2.1 ∧ title ≠ r.2.2) →
      theme_loop title
        (recs.map (fun r => mkThemeItem r.1 r.2.1 r.2.2) ++ [mkThemeItem (some u) en fr]) =
        .ok (some (.str u)) := by
  intro recs
  induction recs with
  | nil =>
    intro _
    simpa using theme_loop_single_no_match title u en fr hen hfr
  | cons r rest ih =>
    intro h
    have hr := h r (List.mem_cons_self r rest)
    have hrest := ih (fun q hq => h q (List.mem_cons_of_mem r hq))
    simpa using theme_loop_cons_skip title r.1 r.2.1 r.2.2 _ _ hr.1 hr.2 hrest

/-- C3: for every registry state and every layer whose (non-empty) short name
already occurs in the given locale's registered list, `add_layer` raises the
duplicate-short-name `UserMessageException` at insertion time, and the
registry state returned at the raise is exactly the state before the call -
no partial insert in either locale's list. -/
theorem c3_add_layer_duplicate_no_partial_insert
    (info : DdrInfo) (layer : QgsLayer) (language sn : String) (lst : List String)
    (hsn : layer.shortName = some sn) (hne : sn ≠ "")
    (hlst : (if language = "EN" then info.qgis_layer_name_en else info.qgis_layer_name_fr) = some lst)
    (hmem : sn ∈ lst) :
    info.add_layer layer language =
      (.error (.userMessage ("Duplicate short name " ++ sn ++ " for layer " ++ layer.name)), info) := by
  simp only [DdrInfo.add_layer, hsn]
  rw [if_neg hne, hlst]
  simp [hmem]

/-- C3 witness: a registry that already holds short name `roads` for the
English locale rejects a second layer with that short name and is returned
unchanged. -/
theorem c3_add_layer_duplicate_witness :
    DdrInfo.add_layer ⟨some ["roads"], some [], Json.arr [], Json.arr [], Json.arr []⟩
        ⟨some "roads", "Roads"⟩ "EN" =
      (.error (.userMessage "Duplicate short name roads for layer Roads"),
       ⟨some ["roads"], some [], Json.arr [], Json.arr [], Json.arr []⟩) :=
  c3_add_layer_duplicate_no_partial_insert
    ⟨some ["roads"], some [], Json.arr [], Json.arr [], Json.arr []⟩
    ⟨some "roads", "Roads"⟩ "EN" "roads" ["roads"] rfl (by decide) rfl (by decide)

/-- C5: invoking the publish operation with the token slot unset raises the
not-authenticated `UserMessageException`, and the recorded request trace is
empty: the raise happens before any HTTP request is issued to the remote
service, whatever the archive-open and transport outcomes would have been. -/
theorem c5_publish_without_login_raises_before_any_request
    (zip_open : Except PyErr Unit) (send : Except PyErr Response) :
    publish_project_file none zip_open send =
      (.error (.userMessage "The user must login first before doing any access to the DDR"), []) :=
  rfl

/-- C6: a project handle reporting unsaved modifications makes the snapshot
step raise the dirty-project `UserMessageException` with an empty effect
trace: the temporary working directory is never created. -/
theorem c6_dirty_project_fails_before_mkdtemp
    (proj : QgsProjectState) (tmpdir : String) (mapLayersOf : String → List QgsLayer)
    (ctl : ControlFile) (info : DdrInfo) (hdirty : proj.isDirty = true) :
    copy_qgis_project_file proj tmpdir mapLayersOf ctl info =
      (.error (.userMessage "The QGIS project file must be saved before starting the DDR publication"),
       []) := by
  simp [copy_qgis_project_file, hdirty]

/-- C6 witness: a concrete dirty project is rejected with no effect. -/
theorem c6_dirty_project_witness :
    copy_qgis_project_file ⟨true, "orig.qgs"⟩ "/tmp/qgis_x" (fun _ => []) {} DdrInfo.initState =
      (.error (.userMessage "The QGIS project file must be saved before starting the DDR publication"),
       []) :=
  c6_dirty_project_fails_before_mkdtemp ⟨true, "orig.qgs"⟩ "/tmp/qgis_x" (fun _ => []) {}
    DdrInfo.initState rfl

/-- C7: when the first status log line succeeds, `_push_response` returns
normally whatever the outcome of decoding the response body - an error
response whose body cannot be parsed as JSON is swallowed silently by the
inner `except Exception: pass` instead of raising the protocol
`UserMessageException`; in particular a 401 validate response with an
unparseable body is fully absorbed by the interpreter. -/
theorem c7_unparseable_error_body_is_swallowed :
    (∀ (push2 : Except PyErr Unit) (respJson : Except PyErr Json) (status_code : Nat)
       (message : String),
       rc_push_response (.ok ()) push2 respJson status_code message = .ok ())
    ∧ rc_validate_project_file ⟨401, .error (.otherExc "JSONDecodeError")⟩ = .ok () := by
  constructor
  · intro push2 respJson status_code message
    cases respJson with
    | error e => rfl
    | ok j => cases push2 <;> rfl
  · rfl

/-- C8 counterexample: with the keep-files flag set to `"No"` and every
`rmtree` attempt failing, the cleanup step makes exactly 5 silent
attempt-sleep rounds and then returns with no log output at all - no cleanup
warning is reported, contradicting the claim that exhausting the retries
reports a warning. -/
theorem c8_counterexample_silent_exhaustion :
    delete_dir_file (some "No") (fun _ => false) =
      [CleanEffect.rmtreeAttempt, CleanEffect.sleepHalfSecond,
       CleanEffect.rmtreeAttempt, CleanEffect.sleepHalfSecond,
       CleanEffect.rmtreeAttempt, CleanEffect.sleepHalfSecond,
       CleanEffect.rmtreeAttempt, CleanEffect.sleepHalfSecond,
       CleanEffect.rmtreeAttempt, CleanEffect.sleepHalfSecond]
    ∧ CleanEffect.logDeleted ∉ delete_dir_file (some "No") (fun _ => false) :=
  ⟨rfl, by decide⟩

/-- C8 amended: the cleanup step attempts deletion exactly when the keep-files
flag equals `"No"`, makes at most 5 `rmtree` attempts (each failure followed
by a half-second sleep), never raises, and when every attempt fails it gives
up *silently* - no warning is reported. -/
theorem c8_cleanup_bounded_retry_silent_giveup
    (keep_files : Option String) (rm : Nat → Bool) :
    (keep_files ≠ some "No" → delete_dir_file keep_files rm = [])
    ∧ (keep_files = some "No" → CleanEffect.rmtreeAttempt ∈ delete_dir_file keep_files rm)
    ∧ attemptCount (delete_dir_file keep_files rm) ≤ 5
    ∧ ((∀ i, rm i = false) → CleanEffect.logDeleted ∉ delete_dir_file keep_files rm) := by
  refine ⟨?_, ?_, ?_, ?_⟩
  · intro h
    simp [delete_dir_file, h]
  · intro h
    simp only [delete_dir_file, if_pos h, delete_retry_loop]
    by_cases h0 : rm 0
    · rw [if_pos h0]; simp
    · rw [if_neg h0]; simp
  · unfold delete_dir_file
    by_cases h : keep_files = some "No"
    · rw [if_pos h]
      exact attemptCount_delete_retry_loop_le rm 5 0
    · rw [if_neg h]
      simp [attemptCount]
  · intro hrm
    unfold delete_dir_file
    by_cases h : keep_files = some "No"
    · rw [if_pos h]
      exact delete_retry_loop_all_fail_silent rm hrm 5 0
    · rw [if_neg h]
      simp

/-- C8 witness: with the keep-files flag set (kept at `"Yes"`), the cleanup
step does nothing at all. -/
theorem c8_cleanup_witness :
    delete_dir_file (some "Yes") (fun _ => true) = [] :=
  (c8_cleanup_bounded_retry_silent_giveup (some "Yes") (fun _ => true)).1 (by decide)

/-- C4: a run whose control record reaches the zip step with the working
directory, manifest, container and both locale project paths set produces an
archive whose entry list is exactly the basenames of the manifest, the
container and the two locale project files - no extra entries - and every
entry name is a flat, relative name containing no path separator. -/
theorem c4_zip_exact_relative_entries
    (ctl : ControlFile) (dir cname gname ename fname : String)
    (hdir : ctl.control_file_dir = some dir)
    (hc : ctl.control_file_name = some cname)
    (hg : ctl.gpkg_file_name = some gname)
    (he : ctl.out_qgs_project_file_en = some ename)
    (hf : ctl.out_qgs_project_file_fr = some fname) :
    create_zip_file ctl =
      .ok ({ ctl with zip_file_name := some (pathJoin dir "ddr_publish.zip") },
           [pathName cname, pathName gname, pathName ename, pathName fname])
    ∧ ∀ entry ∈ [pathName cname, pathName gname, pathName ename, pathName fname],
        '/' ∉ entry.toList := by
  constructor
  · simp [create_zip_file, hdir, hc, hg, he, hf]
  · intro entry hentry
    simp only [List.mem_cons, List.not_mem_nil, or_false] at hentry
    rcases hentry with h | h | h | h <;> subst h <;> exact pathName_no_slash _

/-- C4 witness: the concrete ready-for-zip control record yields exactly the
four flat entry names. -/
theorem c4_zip_witness :
    create_zip_file ctl_ready_for_zip =
      .ok ({ ctl_ready_for_zip with zip_file_name := some "/tmp/qgis_abc123/ddr_publish.zip" },
           ["ControlFile.json", "qgis_vector_layers.gpkg", "project_en.qgs", "project_fr.qgs"])
    ∧ ∀ entry ∈ ["ControlFile.json", "qgis_vector_layers.gpkg", "project_en.qgs", "project_fr.qgs"],
        '/' ∉ entry.toList :=
  c4_zip_exact_relative_entries ctl_ready_for_zip "/tmp/qgis_abc123"
    "/tmp/qgis_abc123/ControlFile.json" "/tmp/qgis_abc123/qgis_vector_layers.gpkg"
    "/tmp/qgis_abc123/project_en.qgs" "/tmp/qgis_abc123/project_fr.qgs"
    rfl rfl rfl rfl rfl

/-- C9: the short-name derivation returns the declared short name with spaces
replaced by underscores, then lowercased, then NFD-decomposed, then with all
non-ASCII code points dropped silently (every output code point is ASCII);
on the concrete name `Élévation Map` this gives `elevation_map`; and a layer
whose declared short name is missing or empty is rejected by `add_layer` with
the missing-short-name `UserMessageException` at registration. -/
theorem c9_short_name_derivation :
    (∀ (layer : QgsLayer) (sn : String), layer.shortName = some sn →
        get_layer_short_name layer =
          .ok (String.mk (encodeAsciiIgnore
            ((((replaceSpaceUnderscore sn.toList).map pyStrLowerChar).map nfdChar).flatten))))
    ∧ (∀ (layer : QgsLayer) (out : String), get_layer_short_name layer = .ok out →
        ∀ c ∈ out.toList, c.toNat < 128)
    ∧ get_layer_short_name ⟨some "Élévation Map", "Elevation"⟩ = .ok "elevation_map"
    ∧ (∀ (info : DdrInfo) (layer : QgsLayer) (language : String),
        layer.shortName = none ∨ layer.shortName = some "" →
        (info.add_layer layer language).1 =
          .error (.userMessage ("The short name for layer " ++ layer.name ++ " is missing"))) := by
  refine ⟨?_, ?_, ?_, ?_⟩
  · intro layer sn h
    simp [get_layer_short_name, h]
  · intro layer out hout c hc
    cases hs : layer.shortName with
    | none => simp [get_layer_short_name, hs] at hout
    | some sn =>
      simp only [get_layer_short_name, hs, Except.ok.injEq] at hout
      subst hout
      have : c ∈ encodeAsciiIgnore
          ((((replaceSpaceUnderscore sn.toList).map pyStrLowerChar).map nfdChar).flatten) := hc
      have h2 := List.mem_filter.mp this
      exact of_decide_eq_true h2.2
  · rfl
  · intro info layer language h
    rcases h with h | h
    · simp [DdrInfo.add_layer, h]
    · simp [DdrInfo.add_layer, h]

/-- C9 witness: a layer with an empty declared short name is rejected at
registration. -/
theorem c9_short_name_witness :
    (DdrInfo.add_layer DdrInfo.initState.init_project_file ⟨some "", "Roads"⟩ "EN").1 =
      .error (.userMessage "The short name for layer Roads is missing") :=
  c9_short_name_derivation.2.2.2 DdrInfo.initState.init_project_file ⟨some "", "Roads"⟩ "EN"
    (Or.inr rfl)

/-- C10: for every non-empty well-formed theme catalog and every title that
matches no entry in either language, when the last entry's `theme_uuid` is
non-null `get_theme_uuid` does not raise the not-found error: it returns the
last entry's uuid, so an unrecognized theme title silently resolves to the
last theme's UUID. -/
theorem c10_unmatched_title_resolves_to_last_theme
    (recs : List (Option String × String × String)) (title u en fr : String) (info : DdrInfo)
    (hrecs : ∀ r ∈ recs, title ≠ r.2.1 ∧ title ≠ r.2.2)
    (hen : title ≠ en) (hfr : title ≠ fr)
    (hcat : info.json_theme =
      .arr (recs.map (fun r => mkThemeItem r.1 r.2.1 r.2.2) ++ [mkThemeItem (some u) en fr])) :
    get_theme_uuid info title = .ok (.str u) := by
  have hloop := theme_loop_no_match_list title u en fr hen hfr recs hrecs
  simp [get_theme_uuid, hcat, Json.iterList, hloop, Json.isNull]

/-- C10 witness: the title `Nope` matches neither catalog entry, and the
call returns the last entry's uuid `u2` instead of raising. -/
theorem c10_unmatched_title_witness :
    get_theme_uuid
      ⟨none, none,
       .arr [mkThemeItem (some "u1") "Agriculture" "Agriculture FR",
             mkThemeItem (some "u2") "Climate" "Climat"],
       .arr [], .arr []⟩ "Nope" = .ok (.str "u2") :=
  c10_unmatched_title_resolves_to_last_theme
    [(some "u1", "Agriculture", "Agriculture FR")] "Nope" "u2" "Climate" "Climat"
    ⟨none, none,
     .arr [mkThemeItem (some "u1") "Agriculture" "Agriculture FR",
           mkThemeItem (some "u2") "Climate" "Climat"],
     .arr [], .arr []⟩
    (by intro r hr; simp at hr; subst hr; exact ⟨by decide, by decide⟩)
    (by decide) (by decide) rfl

/-- C1 counterexample: in a publish run whose GeoPackage-copy stage raises a
named pipeline error, the orchestrator ends with that error and neither the
restore-original-project statement nor the cleanup statement ever starts:
they are skipped on the failure path, contradicting the claim that they are
always executed. -/
theorem c1_counterexample_failure_skips_restore_cleanup :
    (process_algorithm "PUBLISH" env_gpkg_failure).1 = .error (.userMessage "container failure")
    ∧ Stage.copyLayerGpkg ∈ (process_algorithm "PUBLISH" env_gpkg_failure).2
    ∧ Stage.restoreOriginalProjectFile ∉ (process_algorithm "PUBLISH" env_gpkg_failure).2
    ∧ Stage.deleteDirFile ∉ (process_algorithm "PUBLISH" env_gpkg_failure).2 :=
  ⟨rfl, by decide, by decide, by decide⟩

/-- C1 amended: in every orchestrator run, restoration and cleanup execute
only on the all-stages-succeed path; whenever the run ends with an error
raised by any earlier statement (the restore and cleanup statements
themselves succeeding whenever reached), neither the restore-original-project
step nor the cleanup step has started - a stage failure short-circuits
straight out of `process_algorithm` past both of them. -/
theorem c1_failure_path_skips_restore_and_cleanup
    (process_type : String) (env : Stage → Except PyErr Unit) (e : PyErr)
    (hrestore : env Stage.restoreOriginalProjectFile = .ok ())
    (hdelete : env Stage.deleteDirFile = .ok ())
    (herr : (process_algorithm process_type env).1 = .error e) :
    Stage.restoreOriginalProjectFile ∉ (process_algorithm process_type env).2
    ∧ Stage.deleteDirFile ∉ (process_algorithm process_type env).2 := by
  have hpre_mem : ∀ s : Stage, s ∈ (runSeq env preStages).2 → s ∈ preStages :=
    fun s => runSeq_mem env preStages s
  rcases hpre : runSeq env preStages with ⟨r, t⟩
  have ht : ∀ s : Stage, s ∈ t → s ∈ preStages := by
    intro s hs
    exact hpre_mem s (by rw [hpre]; exact hs)
  cases r with
  | error e2 =>
    simp only [process_algorithm, hpre] at herr ⊢
    constructor
    · intro hmem
      exact absurd (ht _ hmem) (by decide)
    · intro hmem
      exact absurd (ht _ hmem) (by decide)
  | ok u =>
    simp only [process_algorithm, hpre] at herr ⊢
    by_cases hpt : process_type = "VALIDATE" ∨ process_type = "PUBLISH" ∨ process_type = "UNPUBLISH"
    · rw [if_pos hpt] at herr ⊢
      cases hrem : env Stage.remoteOp with
      | error e3 =>
        constructor
        · intro hmem
          simp only [List.mem_append, List.mem_singleton] at hmem
          rcases hmem with h1 | h1
          · exact absurd (ht _ h1) (by decide)
          · exact absurd h1 (by decide)
        · intro hmem
          simp only [List.mem_append, List.mem_singleton] at hmem
          rcases hmem with h1 | h1
          · exact absurd (ht _ h1) (by decide)
          · exact absurd h1 (by decide)
      | ok u2 =>
        have hfin : runSeq env [Stage.restoreOriginalProjectFile, Stage.deleteDirFile] =
            (.ok (), [Stage.restoreOriginalProjectFile, Stage.deleteDirFile]) := by
          simp [runSeq, hrestore, hdelete]
        rw [hrem, hfin] at herr
        simp at herr
    · rw [if_neg hpt] at herr ⊢
      constructor
      · intro hmem
        exact absurd (ht _ hmem) (by decide)
      · intro hmem
        exact absurd (ht _ hmem) (by decide)

/-- C1 witness: the amended theorem applied to the publish run whose
GeoPackage-copy stage fails. -/
theorem c1_failure_path_witness :
    Stage.restoreOriginalProjectFile ∉ (process_algorithm "PUBLISH" env_gpkg_failure).2
    ∧ Stage.deleteDirFile ∉ (process_algorithm "PUBLISH" env_gpkg_failure).2 :=
  c1_failure_path_skips_restore_and_cleanup "PUBLISH" env_gpkg_failure
    (.userMessage "container failure") rfl rfl rfl

/-- C2 counterexample: a login run whose HTTP 200 response body lacks the
`access_token` field ends with a raw `KeyError` that the entry point's
`except UserMessageException` boundary does not catch - an exception escapes
the run to the host, contradicting the claim that no exception of any kind
escapes. -/
theorem c2_counterexample_keyerror_escapes :
    (ddrLogin_processAlgorithm "2023-03-01 12:00:00" env_login_missing_token none
        DdrInfo.initState).1.1 =
      .error (.keyError "access_token") :=
  rfl

/-- C2 amended: every `UserMessageException` raised inside a run's body is
caught exactly once at the entry point boundary, logged as two lines carrying
the timestamp prefix, and converted into a normal return - both for the login
entry point and for the publish/validate/unpublish orchestrator boundary;
exceptions of any other class, however, are not caught there and escape the
run. -/
theorem c2_named_errors_caught_once_logged :
    (∀ (date_time : String) (env : LoginEnv) (token0 : Option String) (info0 : DdrInfo)
       (m : String) (token : Option String) (info : DdrInfo),
       login_body env token0 info0 = (.error (.userMessage m), token, info) →
       ddrLogin_processAlgorithm date_time env token0 info0 =
         ((.ok (), token, info),
          [push_info_line date_time "ERROR: Login process",
           push_info_line date_time ("ERROR: " ++ m)]))
    ∧ (∀ (date_time label process_type : String) (env : Stage → Except PyErr Unit) (m : String),
       (process_algorithm process_type env).1 = .error (.userMessage m) →
       entry_processAlgorithm date_time label process_type env =
         (.ok (), [push_info_line date_time ("ERROR: " ++ label),
                   push_info_line date_time ("ERROR: " ++ m)])) := by
  constructor
  · intro date_time env token0 info0 m token info h
    simp [ddrLogin_processAlgorithm, h]
  · intro date_time label process_type env m h
    rcases hq : process_algorithm process_type env with ⟨r, t⟩
    rw [hq] at h
    simp only at h
    subst h
    simp [entry_processAlgorithm, hq]

/-- C2 witness: a login run with no stored credentials raises the named
credential error, which the boundary catches and logs with the timestamp
prefix before returning normally. -/
theorem c2_named_error_witness :
    ddrLogin_processAlgorithm "2023-03-01 12:00:00" env_login_no_credentials none
        DdrInfo.initState =
      ((.ok (), none, DdrInfo.initState),
       [push_info_line "2023-03-01 12:00:00" "ERROR: Login process",
        push_info_line "2023-03-01 12:00:00"
          "ERROR: Unable to extract username/password from QGIS authetication system"]) :=
  c2_named_errors_caught_once_logged.1 "2023-03-01 12:00:00" env_login_no_credentials none
    DdrInfo.initState "Unable to extract username/password from QGIS authetication system"
    none DdrInfo.initState rfl

end Ddr
